import Mathlib

/-!
Verification development for the quarto-record-demo repository.

The development shallowly embeds the TypeScript sources:
  * src/quarto.ts  - readiness scan (waitForQuartoServer / processStderr) and
                     the three-step shutdown routine (stopQuartoPreview);
  * src/capture.ts - captureScreen;
  * src/cli.ts     - parseArgs;
  * src/main.ts    - processItem and the per-item run loop of main.

Asynchronous effects are embedded explicitly: stderr chunks carry arrival
times, subprocess/OS outcomes are drawn from explicit environment records,
and thrown JavaScript exceptions become the error side of Except.
-/

/-! ### String scanning utilities (substring and regex matching from quarto.ts)

JavaScript operates on strings directly; we model the two operations the
source uses, `String.prototype.includes` and
`text.match(/Listening on (http:\/\/[^\/\s]+)/)`, over the character list
of the string.
-/

/-- Does the text begin with the given pattern?  (matching at one position) -/
def leadsWith : List Char → List Char → Bool
  | [], _ => true
  | _ :: _, [] => false
  | p :: ps, c :: cs => p == c && leadsWith ps cs

/-- Does the pattern occur anywhere in the text?
Model of JavaScript `text.includes(pat)` (quarto.ts line 158). -/
def containsSub (pat : List Char) : List Char → Bool
  | [] => pat.isEmpty
  | c :: cs => leadsWith pat (c :: cs) || containsSub pat cs

/-- String-level wrapper for `containsSub`. -/
def containsSubstr (s pat : String) : Bool := containsSub pat.data s.data

/-- Characters admitted by the regex character class `[^\/\s]`:
not a slash and not whitespace. -/
def urlChar (c : Char) : Bool := !(c == '/') && !c.isWhitespace

/-- The literal part of the readiness regex: everything before the
one-or-more character class, i.e. `Listening on http://`. -/
def listenMarker : List Char := "Listening on http://".data

/-- First match of the regex `/Listening on (http:\/\/[^\/\s]+)/`
(quarto.ts line 151), scanning left to right; the returned value is capture
group 1, i.e. `http://` followed by a non-empty run of `[^\/\s]` characters.
A position where the literal matches but the run is empty is not a match,
and scanning continues at the next position, as in the regex engine. -/
def matchListening : List Char → Option (List Char)
  | [] => none
  | c :: cs =>
    if leadsWith listenMarker (c :: cs) then
      if (((c :: cs).drop listenMarker.length).takeWhile urlChar).isEmpty then
        matchListening cs
      else
        some ("http://".data ++ ((c :: cs).drop listenMarker.length).takeWhile urlChar)
    else matchListening cs

/-- String-level wrapper for `matchListening`: the recorded URL, if the
chunk announces one. -/
def listeningUrl (s : String) : Option String :=
  (matchListening s.data).map fun cs => ⟨cs⟩

/-! ### Readiness scan (quarto.ts, `waitForQuartoServer`, lines 108-185)

A stderr chunk arrives at a point in time (milliseconds); the stream may or
may not ever report `done`.  The scan `processStderr` resolves either with
the recorded URL (after the fixed settle delay) or with the
stream-ended-prematurely error; if the stream never ends and never
completes, the scan never resolves (`none`).
-/

/-- Errors of the readiness wait (quarto.ts lines 115 and 170). -/
inductive QuartoError where
  | readinessTimeout
  | streamEndedPrematurely
deriving DecidableEq, Repr

/-- The settle delay after the request marker (quarto.ts line 162). -/
def settleDelayMs : Nat := 500

/-- The overall readiness timeout (quarto.ts line 116). -/
def timeoutMs : Nat := 60000

/-- One stderr chunk together with its arrival time in milliseconds. -/
structure TimedChunk where
  time : Nat
  text : String
deriving DecidableEq, Repr

/-- The url-recording step of one loop iteration (quarto.ts lines 151-155):
record the first listening announcement, keep any previously recorded URL. -/
def updateUrl (url text : String) : String :=
  match listeningUrl text with
  | some u => if url = "" then u else url
  | none => url

/-- The completion guard of one loop iteration (quarto.ts line 158): the
chunk carries the incoming-request marker and a URL has been recorded
(including one recorded from this very chunk). -/
def completesAt (url text : String) : Bool :=
  containsSubstr text "GET:" && (updateUrl url text != "")

/-- The stderr scan of `waitForQuartoServer` (quarto.ts lines 139-175),
started with `url = ""`.  Returns the scan outcome together with the time
at which the scan resolves: on completion that is the marker chunk arrival
plus the settle delay; on a premature stream end it is the end time.
`none` means the scan never resolves (the stream neither completes nor
ends). -/
def processStderr (url : String) :
    List TimedChunk → Option Nat → Option (Except QuartoError String × Nat)
  | [], none => none
  | [], some tEnd => some (.error .streamEndedPrematurely, tEnd)
  | c :: rest, tEnd =>
    if completesAt url c.text then
      some (.ok (updateUrl url c.text), c.time + settleDelayMs)
    else
      processStderr (updateUrl url c.text) rest tEnd

/-- A synthetic stderr stream: its chunks in arrival order, and the time at
which it reports done, if it ever does. -/
structure TimedStream where
  chunks : List TimedChunk
  endTime : Option Nat
deriving DecidableEq, Repr

/-- The readiness wait (quarto.ts lines 108-185): `Promise.race` of the
stderr scan against the fixed timeout.  The earlier resolution wins; if the
scan never resolves, or resolves no earlier than the timeout, the timeout
rejection is observed. -/
def waitForQuartoServer (s : TimedStream) : Except QuartoError String :=
  match processStderr "" s.chunks s.endTime with
  | none => .error .readinessTimeout
  | some (res, t) => if t < timeoutMs then res else .error .readinessTimeout

/-! ### Shutdown routine (quarto.ts, `stopQuartoPreview`, lines 191-268)

The routine is a sequence of best-effort steps, each wrapped in its own
try/catch, all inside one outer try/catch.  We embed it in a small
trace-writing error monad: a computation appends the actions it attempts to
a trace and either succeeds or raises a JavaScript-style error.  The
possible outcome of every fallible primitive (signal sends, the bounded
exit wait, the pkill/pgrep subprocesses) is drawn from an explicit
environment, so the theorems quantify over every combination of internal
outcomes.
-/

/-- Observable actions of the shutdown routine, in the order attempted. -/
inductive StopAction where
  /-- `process.kill("SIGTERM")` on the known pid (line 199). -/
  | sigterm (pid : Nat)
  /-- awaiting process exit, bounded by the given timeout (lines 202-207). -/
  | awaitExit (ms : Nat)
  /-- escalation `process.kill("SIGKILL")` on the known pid (line 214). -/
  | sigkill (pid : Nat)
  /-- pattern-based orphan sweep `pkill -f "deno.*quarto\.ts preview"` (line 223). -/
  | orphanPkill
  /-- the fixed pause after the orphan sweep (line 232). -/
  | settleSleep (ms : Nat)
  /-- verification re-search `pgrep -f "deno.*quarto\.ts preview"` (line 240). -/
  | pgrepCheck
  /-- forceful `pkill -9` of the remaining matches (line 253). -/
  | forcePkill
deriving DecidableEq, Repr

/-- Environment fixing the outcome of every fallible internal step of one
`stopQuartoPreview` call. -/
structure StopEnv where
  /-- pid recorded in the handle. -/
  pid : Nat
  /-- `process.kill("SIGTERM")` throws (e.g. the process is already dead). -/
  sigtermThrows : Bool
  /-- the process exits within the bounded wait (otherwise the race with the
  2-second timer rejects). -/
  exitsWithinGrace : Bool
  /-- the escalation `process.kill("SIGKILL")` throws. -/
  sigkillThrows : Bool
  /-- spawning/awaiting the orphan `pkill` throws. -/
  pkillThrows : Bool
  /-- spawning/awaiting the verification `pgrep` throws. -/
  pgrepThrows : Bool
  /-- `pgrep` exited with code 0 (it found matches). -/
  pgrepSuccess : Bool
  /-- the trimmed `pgrep` stdout. -/
  remainingPids : String
  /-- the forceful `pkill -9` throws. -/
  forcePkillThrows : Bool
deriving DecidableEq, Repr

/-- Trace-writing error monad for the shutdown routine: from the trace so
far, produce the extended trace and a success-or-thrown-error outcome. -/
def StopM (α : Type) := List StopAction → List StopAction × Except String α

/-- Pure computation: attempt nothing, succeed. -/
def pureS {α : Type} (a : α) : StopM α := fun tr => (tr, .ok a)

/-- Sequencing: run the first computation; on success continue, on a thrown
error propagate it (skipping the continuation). -/
def bindS {α β : Type} (m : StopM α) (f : α → StopM β) : StopM β := fun tr =>
  match m tr with
  | (tr', .ok a) => f a tr'
  | (tr', .error e) => (tr', .error e)

/-- try/catch: run the body; if it throws, run the handler. -/
def tryS {α : Type} (m : StopM α) (h : StopM α) : StopM α := fun tr =>
  match m tr with
  | (tr', .ok a) => (tr', .ok a)
  | (tr', .error _) => h tr'

/-- A fallible primitive step: the action is attempted (recorded in the
trace) and then either succeeds or throws, as the environment dictates. -/
def act (a : StopAction) (throws : Bool) (msg : String) : StopM Unit :=
  fun tr => (tr ++ [a], if throws then .error msg else .ok ())

/-- The grace period of the bounded exit wait (quarto.ts line 204). -/
def graceTimeoutMs : Nat := 2000

/-- Step 1 of the shutdown (quarto.ts lines 196-218): SIGTERM the known
pid, await exit racing a 2-second timer; on any throw, attempt SIGKILL on
the same pid, itself with a swallow-everything catch. -/
def directKillStep (env : StopEnv) : StopM Unit :=
  tryS
    (bindS (act (.sigterm env.pid) env.sigtermThrows "kill failed") fun _ =>
      act (.awaitExit graceTimeoutMs) (!env.exitsWithinGrace)
        "Timeout waiting for process to exit")
    (tryS (act (.sigkill env.pid) env.sigkillThrows "kill failed")
      (pureS ()))

/-- Step 2 of the shutdown (quarto.ts lines 220-236): pattern-based orphan
sweep, then a fixed 500 ms pause; any throw is swallowed (pkill exiting
non-zero on no matches is treated as success by `output()`, and a genuine
spawn failure lands in the catch). -/
def orphanSweepStep (env : StopEnv) : StopM Unit :=
  tryS
    (bindS (act .orphanPkill env.pkillThrows "pkill failed") fun _ =>
      act (.settleSleep 500) false "")
    (pureS ())

/-- Step 3 of the shutdown (quarto.ts lines 238-265): re-search the process
table; if the search succeeded and reported survivors, force-kill them;
any throw is swallowed. -/
def verifySweepStep (env : StopEnv) : StopM Unit :=
  tryS
    (bindS (act .pgrepCheck env.pgrepThrows "pgrep failed") fun _ =>
      if env.pgrepSuccess && env.remainingPids != "" then
        act .forcePkill env.forcePkillThrows "pkill -9 failed"
      else
        pureS ())
    (pureS ())

/-- The full shutdown routine `stopQuartoPreview` (quarto.ts lines
191-268): the three steps in order inside the outer catch-all, run on the
empty trace. -/
def stopQuartoPreview (env : StopEnv) : List StopAction × Except String Unit :=
  tryS
    (bindS (directKillStep env) fun _ =>
      bindS (orphanSweepStep env) fun _ => verifySweepStep env)
    (pureS ()) []

/-- The actions a shutdown call attempts, in order. -/
def stopTrace (env : StopEnv) : List StopAction := (stopQuartoPreview env).1

/-- The outcome the shutdown call reports to its caller. -/
def stopResult (env : StopEnv) : Except String Unit := (stopQuartoPreview env).2

/-! ### Screen capture (capture.ts, `captureScreen`, lines 11-45) -/

/-- A screen rectangle (capture.ts/types.ts); the coordinates only ever
flow into the formatted `-R` argument, so their numeric type is
irrelevant here. -/
structure ScreenRect where
  x : Int
  y : Int
  width : Int
  height : Int
deriving DecidableEq, Repr

/-- Environment fixing the outcome of the external steps of one
`captureScreen` call. -/
structure CaptureEnv where
  /-- spawning/awaiting the `screencapture` subprocess throws. -/
  spawnThrows : Bool
  /-- the `screencapture` subprocess exited successfully. -/
  toolSuccess : Bool
  /-- `Deno.stat(outputPath)` succeeds (the output file exists). -/
  statOk : Bool
  /-- size of the output file reported by `stat`. -/
  fileSize : Nat
deriving DecidableEq, Repr

/-- `captureScreen` (capture.ts lines 11-45).  The outer try/catch absorbs
the spawn failure and the thrown "Screen capture failed"; the inner
try/catch around the verification absorbs the stat failure and the thrown
"Screenshot file is empty"; every absorbed throw returns false. -/
def captureScreen (outputPath : String) (rect : ScreenRect)
    (env : CaptureEnv) : Bool :=
  if env.spawnThrows then false
  else if !env.toolSuccess then false
  else if !env.statOk then false
  else if env.fileSize = 0 then false
  else true

/-! ### Command line parsing (cli.ts, `parseArgs`, lines 10-79)

The loop walks the arguments from index 1; each value-taking flag consumes
the following argument when one exists, and otherwise the else-if chain
falls through to the unknown-argument error.  `--profile-group` consumes
the following argument only when it is numeric (in the JavaScript
`!isNaN(Number(x))` sense) and does not start with `--`; otherwise the
index defaults to 0 and the following argument is re-examined as a flag.
-/

/-- Are all characters decimal digits, with at least one present? -/
def digits1 (cs : List Char) : Bool := !cs.isEmpty && cs.all Char.isDigit

/-- Exponent part of a JavaScript decimal literal: empty, or `e`/`E`, an
optional sign, and at least one digit. -/
def expPartOk : List Char → Bool
  | [] => true
  | e :: rest =>
    (e == 'e' || e == 'E') &&
      (match rest with
       | s :: t => if s == '+' || s == '-' then digits1 t else digits1 rest
       | [] => false)

/-- Unsigned decimal literal accepted by JavaScript `Number`: digits, an
optional fraction (with digits on at least one side of the dot), and an
optional exponent. -/
def decNumberOk (cs : List Char) : Bool :=
  let intPart := cs.takeWhile Char.isDigit
  let rest := cs.dropWhile Char.isDigit
  match rest with
  | [] => !intPart.isEmpty
  | '.' :: tail =>
    let frac := tail.takeWhile Char.isDigit
    let rest2 := tail.dropWhile Char.isDigit
    (!intPart.isEmpty || !frac.isEmpty) && expPartOk rest2
  | _ => !intPart.isEmpty && expPartOk rest

/-- Hexadecimal digit. -/
def hexDigit (c : Char) : Bool :=
  c.isDigit || ('a' ≤ c && c ≤ 'f') || ('A' ≤ c && c ≤ 'F')

/-- Radix-prefixed literal accepted by JavaScript `Number`: `0x`/`0o`/`0b`
followed by at least one digit of the radix (no sign allowed). -/
def radixNumberOk : List Char → Bool
  | '0' :: x :: rest =>
    if x == 'x' || x == 'X' then !rest.isEmpty && rest.all hexDigit
    else if x == 'o' || x == 'O' then
      !rest.isEmpty && rest.all fun c => '0' ≤ c && c ≤ '7'
    else if x == 'b' || x == 'B' then
      !rest.isEmpty && rest.all fun c => c == '0' || c == '1'
    else false
  | _ => false

/-- Model of JavaScript `!isNaN(Number(s))` (cli.ts line 46): after
trimming surrounding whitespace the string is empty (`Number("")` is 0),
a radix literal, or an optionally signed decimal literal or `Infinity`. -/
def jsNumericOk (s : String) : Bool :=
  let cs := ((s.data.dropWhile Char.isWhitespace).reverse.dropWhile
    Char.isWhitespace).reverse
  match cs with
  | [] => true
  | c :: t =>
    radixNumberOk (c :: t) ||
      (let body := if c == '+' || c == '-' then t else c :: t
       body == "Infinity".data || decNumberOk body)

/-- State of the argument-parsing loop: the named options accumulated so
far (cli.ts lines 26-30).  The profile-group index is kept as the raw
numeric string (the source stores `Number(value)`, and `0` for the
value-less form, modelled as `"0"`); no claim consumes more than its
presence. -/
structure ParseState where
  inputDir : String
  file : Option String
  startCommit : Option String
  copyFile : Option String
  profileGroupIndex : Option String
deriving DecidableEq, Repr

/-- Initial loop state (cli.ts lines 26-30): input directory defaults to
`"."`, everything else absent. -/
def initParseState : ParseState := ⟨".", none, none, none, none⟩

/-- The argument loop of `parseArgs` (cli.ts lines 33-55) over the
arguments after the positional output directory.  A value-taking flag in
final position fails its `i + 1 < args.length` guard and falls through the
chain to the unknown-argument error. -/
def parseFlags : List String → ParseState → Except String ParseState
  | [], st => .ok st
  | a :: rest, st =>
    if a = "--input" then
      match rest with
      | v :: rest' => parseFlags rest' { st with inputDir := v }
      | [] => .error ("Unknown argument: " ++ a)
    else if a = "--file" then
      match rest with
      | v :: rest' => parseFlags rest' { st with file := some v }
      | [] => .error ("Unknown argument: " ++ a)
    else if a = "--start-commit" then
      match rest with
      | v :: rest' => parseFlags rest' { st with startCommit := some v }
      | [] => .error ("Unknown argument: " ++ a)
    else if a = "--copy-file" then
      match rest with
      | v :: rest' => parseFlags rest' { st with copyFile := some v }
      | [] => .error ("Unknown argument: " ++ a)
    else if a = "--profile-group" then
      match rest with
      | v :: rest' =>
        if jsNumericOk v && !(leadsWith "--".data v.data) then
          parseFlags rest' { st with profileGroupIndex := some v }
        else
          parseFlags (v :: rest') { st with profileGroupIndex := some "0" }
      | [] => parseFlags [] { st with profileGroupIndex := some "0" }
    else .error ("Unknown argument: " ++ a)

/-- Parsed options returned by `parseArgs` (types.ts `QuartoRecordOptions`). -/
structure QuartoRecordOptions where
  outputDir : String
  inputDir : String
  file : Option String
  startCommit : Option String
  copyFile : Option String
  profileGroupIndex : Option String
deriving DecidableEq, Repr

/-- Path absolutization (`resolve` from the Deno standard library, cli.ts
lines 57-64).  An external collaborator out of the specified core; no claim
depends on the absolute form, so it is modelled as the identity. -/
def resolvePath (p : String) : String := p

/-- JavaScript truthiness of the `startCommit` variable at cli.ts line 67:
a string is truthy exactly when it is non-empty; `undefined` is falsy. -/
def jsTruthyStr : Option String → Bool
  | some s => s != ""
  | none => false

/-- The usage error thrown when no argument is given (cli.ts lines 15-20). -/
def usageErrorMsg : String :=
  "Usage: quarto-record-demo OUTPUT_DIR [--input INPUT_DIR] [--file FILE.qmd] [--start-commit COMMIT] [--copy-file FILE] [--profile-group [INDEX]]\n\nModes (mutually exclusive):\n  Default: Process Git commits from history\n  --profile-group: Process profiles from _quarto.yml profile group"

/-- The mutual-exclusion error (cli.ts line 68). -/
def mutexErrorMsg : String :=
  "--profile-group and --start-commit are mutually exclusive options"

/-- `parseArgs` (cli.ts lines 10-79): require the positional output
directory, run the flag loop, then reject when a profile-group index was
recorded and the start commit is truthy (note: truthy, not merely
present). -/
def parseArgs (args : List String) : Except String QuartoRecordOptions :=
  match args with
  | [] => .error usageErrorMsg
  | outputDir :: rest =>
    match parseFlags rest initParseState with
    | .error e => .error e
    | .ok st =>
      if st.profileGroupIndex.isSome && jsTruthyStr st.startCommit then
        .error mutexErrorMsg
      else
        .ok { outputDir := resolvePath outputDir
              inputDir := resolvePath st.inputDir
              file := st.file
              startCommit := st.startCommit
              copyFile := st.copyFile.map resolvePath
              profileGroupIndex := st.profileGroupIndex }

/-! ### Run orchestrator (main.ts, `processItem` lines 17-59 and the
per-item loops of `main` lines 98-142)

The per-item behaviour of the external collaborators (preview readiness,
capture, copy) is drawn from an explicit record per item; `processItem`
produces the ordered trace of lifecycle events it performs plus a success
flag (false meaning it threw), and the loop stops at the first thrown
error, as an exception aborts both `for` loops of `main`.
-/

/-- Observable per-item lifecycle events of `processItem`, in order. -/
inductive RunEvent where
  /-- `ensureDir` of the item output directory (line 20). -/
  | mkdir
  /-- `startQuartoPreview` call issued (line 25). -/
  | startPreview
  /-- `captureScreen` call (line 31). -/
  | capture
  /-- `stopQuartoPreview` call (line 42). -/
  | stopPreview
  /-- `copyFile` call (line 48). -/
  | copyFile
deriving DecidableEq, Repr

/-- Outcomes of the external collaborators for one item. -/
structure ItemBehavior where
  /-- `startQuartoPreview` resolves (readiness succeeded). -/
  startOk : Bool
  /-- `captureScreen` returns true. -/
  captureOk : Bool
  /-- `options.copyFile` was supplied for this run. -/
  copyRequested : Bool
  /-- `copyFile` returns true. -/
  copyOk : Bool
deriving DecidableEq, Repr

/-- `processItem` (main.ts lines 17-59): make the directory, start the
preview (a readiness failure propagates), capture (on a false result throw
at line 37 - note `stopQuartoPreview` at line 42 is never reached on this
path), stop the preview, then copy the optional file (a false result
throws at line 54).  Returns the event trace and whether the item
completed without throwing. -/
def processItem (b : ItemBehavior) : List RunEvent × Bool :=
  if !b.startOk then ([.mkdir, .startPreview], false)
  else if !b.captureOk then ([.mkdir, .startPreview, .capture], false)
  else if b.copyRequested then
    ([.mkdir, .startPreview, .capture, .stopPreview, .copyFile], b.copyOk)
  else ([.mkdir, .startPreview, .capture, .stopPreview], true)

/-- The per-item loop of `main` (main.ts lines 98-142, identical shape in
both modes): process the items in order, stopping at the first item that
throws.  Returns the concatenated event trace and whether the whole run
succeeded. -/
def runItems : List ItemBehavior → List RunEvent × Bool
  | [] => ([], true)
  | b :: rest =>
    match processItem b with
    | (ev, true) =>
      let r := runItems rest
      (ev ++ r.1, r.2)
    | (ev, false) => (ev, false)

/-- Well-formedness of a lifecycle trace: scanning with a live-preview
flag, a preview may start only when none is live and stop only when one is
live - i.e. no two preview lifecycles overlap. -/
def lifecyclesSequential : Bool → List RunEvent → Bool
  | _, [] => true
  | live, e :: rest =>
    match e with
    | .startPreview => !live && lifecyclesSequential true rest
    | .stopPreview => live && lifecyclesSequential false rest
    | _ => lifecyclesSequential live rest

/-- `main` (main.ts lines 64-151) at the granularity the claims need:
permission checking and the screen-rectangle lookup spawn no subprocess;
`parseArgs` throwing is caught at line 147 and exits 1 before any item is
processed (and so before any preview subprocess is spawned); otherwise the
per-item loop runs and its first thrown error is caught and turned into
exit code 1.  Sequence-provider calls (git history, profile lookup) are
external and elided from the trace. -/
def mainModel (argv : List String) (items : List ItemBehavior) :
    List RunEvent × Nat :=
  match parseArgs argv with
  | .error _ => ([], 1)
  | .ok _ =>
    match runItems items with
    | (ev, true) => (ev, 0)
    | (ev, false) => (ev, 1)

/-! ### Helper lemmas about the readiness scan -/

/-- A regex match is never empty: it always carries at least `http://`. -/
lemma matchListening_ne_nil (cs r : List Char) (h : matchListening cs = some r) :
    r ≠ [] := by
  induction cs with
  | nil => simp [matchListening] at h
  | cons c cs ih =>
    rw [matchListening] at h
    split at h
    · split at h
      · exact ih h
      · cases h
        exact List.append_ne_nil_of_left_ne_nil (by decide) _
    · exact ih h

/-- A recorded URL is never the empty string. -/
lemma listeningUrl_ne_empty (s u : String) (h : listeningUrl s = some u) :
    u ≠ "" := by
  unfold listeningUrl at h
  cases hm : matchListening s.data with
  | none => simp [hm] at h
  | some r =>
    simp only [hm, Option.map_some', Option.some.injEq] at h
    subst h
    intro hc
    exact matchListening_ne_nil s.data r hm (congrArg String.data hc)

/-- A chunk with no listening announcement leaves the recorded URL alone. -/
lemma updateUrl_of_none (url t : String) (h : listeningUrl t = none) :
    updateUrl url t = url := by
  unfold updateUrl; rw [h]

/-- Once a URL is recorded, later chunks never change it. -/
lemma updateUrl_of_ne (u t : String) (h : u ≠ "") : updateUrl u t = u := by
  unfold updateUrl
  cases listeningUrl t <;> simp [h]

/-- Chunks arriving before any listening announcement never complete the
scan, even when they carry the request marker. -/
lemma processStderr_skip_noListen (pre rest : List TimedChunk) (tEnd : Option Nat)
    (h : ∀ c ∈ pre, listeningUrl c.text = none) :
    processStderr "" (pre ++ rest) tEnd = processStderr "" rest tEnd := by
  induction pre with
  | nil => rfl
  | cons c pre ih =>
    have hc : listeningUrl c.text = none := h c (List.mem_cons_self c pre)
    have hu : updateUrl "" c.text = "" := updateUrl_of_none _ _ hc
    have hcc : completesAt "" c.text = false := by
      simp [completesAt, hu]
    rw [List.cons_append, processStderr, if_neg (by simp [hcc]), hu]
    exact ih fun c' hc' => h c' (List.mem_cons_of_mem _ hc')

/-- After a URL is recorded, chunks without the request marker are skipped
with the URL unchanged. -/
lemma processStderr_skip_noGet (mid rest : List TimedChunk) (tEnd : Option Nat)
    (u : String) (hu : u ≠ "")
    (h : ∀ c ∈ mid, containsSubstr c.text "GET:" = false) :
    processStderr u (mid ++ rest) tEnd = processStderr u rest tEnd := by
  induction mid with
  | nil => rfl
  | cons c mid ih =>
    have hc : containsSubstr c.text "GET:" = false := h c (List.mem_cons_self c mid)
    have hcc : completesAt u c.text = false := by simp [completesAt, hc]
    rw [List.cons_append, processStderr, if_neg (by simp [hcc]),
      updateUrl_of_ne u c.text hu]
    exact ih fun c' hc' => h c' (List.mem_cons_of_mem _ hc')

/-- Claim C2: when a listening chunk announcing URL u (the first
announcement of the stream) is later followed by the first chunk carrying
the incoming-request marker, the scan resolves with exactly u, it resolves
at that marker chunk (any request marker arriving before the announcement
does not complete the scan, and everything after the completing chunk is
irrelevant), and it waits exactly the fixed sub-second settle delay of
500 ms between the marker arrival and resolution. -/
theorem c2_readiness_returns_recorded_url
    (pre mid post : List TimedChunk) (cl cg : TimedChunk) (u : String)
    (tEnd : Option Nat)
    (hpre : ∀ c ∈ pre, listeningUrl c.text = none)
    (hcl : listeningUrl cl.text = some u)
    (hclNoGet : containsSubstr cl.text "GET:" = false)
    (hmid : ∀ c ∈ mid, containsSubstr c.text "GET:" = false)
    (hcg : containsSubstr cg.text "GET:" = true) :
    processStderr "" (pre ++ cl :: (mid ++ cg :: post)) tEnd
      = some (.ok u, cg.time + settleDelayMs)
    ∧ settleDelayMs = 500 ∧ settleDelayMs < 1000 := by
  have hu : u ≠ "" := listeningUrl_ne_empty _ _ hcl
  have hucl : updateUrl "" cl.text = u := by
    unfold updateUrl; rw [hcl]; simp
  have hccl : completesAt "" cl.text = false := by simp [completesAt, hclNoGet]
  have hucg : updateUrl u cg.text = u := updateUrl_of_ne _ _ hu
  have hccg : completesAt u cg.text = true := by
    simp [completesAt, hcg, hucg, hu]
  refine ⟨?_, rfl, by decide⟩
  rw [processStderr_skip_noListen pre _ tEnd hpre, processStderr,
    if_neg (by simp [hccl]), hucl,
    processStderr_skip_noGet mid _ tEnd u hu hmid, processStderr,
    if_pos (by simp [hccg]), hucg]

/-- Claim C2 witness at a concrete stream: a stray early request marker, the
announcement of http://h, a noise chunk, the completing marker at time 3,
and a trailing chunk. -/
theorem c2_witness :
    processStderr ""
        ([⟨0, "GET: early"⟩] ++ ⟨1, "Listening on http://h"⟩ ::
          ([⟨2, "x"⟩] ++ ⟨3, "GET: /"⟩ :: [⟨4, "z"⟩])) none
      = some (.ok "http://h", (⟨3, "GET: /"⟩ : TimedChunk).time + settleDelayMs)
    ∧ settleDelayMs = 500 ∧ settleDelayMs < 1000 :=
  c2_readiness_returns_recorded_url
    [⟨0, "GET: early"⟩] [⟨2, "x"⟩] [⟨4, "z"⟩]
    ⟨1, "Listening on http://h"⟩ ⟨3, "GET: /"⟩ "http://h" none
    (by decide) (by decide) (by decide) (by decide) (by decide)

/-- A scan over a stream in which no chunk ever satisfies the completion
guard (given the URL state accumulated up to that chunk) runs to the end of
the stream and resolves with the premature-end error at the end time. -/
lemma processStderr_never_completes (cs : List TimedChunk) :
    ∀ (url : String) (tEnd : Nat),
      (∀ n (hn : n < cs.length),
        completesAt ((cs.take n).foldl (fun u c => updateUrl u c.text) url)
          (cs.get ⟨n, hn⟩).text = false) →
      processStderr url cs (some tEnd)
        = some (.error .streamEndedPrematurely, tEnd) := by
  induction cs with
  | nil => intro url tEnd _; rfl
  | cons c rest ih =>
    intro url tEnd h
    have h0 : completesAt url c.text = false := h 0 (Nat.succ_pos _)
    rw [processStderr, if_neg (by simp [h0])]
    exact ih (updateUrl url c.text) tEnd fun n hn => h (n + 1) (Nat.succ_lt_succ hn)

/-- Claim C3: a stderr stream that terminates at time tEnd without the
request marker ever completing readiness makes the scan resolve - it does
not hang and does not return a URL - with the StreamEndedPrematurely
error; within the timeout, the readiness wait reports exactly that
error. -/
theorem c3_stream_end_rejects (cs : List TimedChunk) (tEnd : Nat)
    (h : ∀ n (hn : n < cs.length),
      completesAt ((cs.take n).foldl (fun u c => updateUrl u c.text) "")
        (cs.get ⟨n, hn⟩).text = false) :
    processStderr "" cs (some tEnd)
      = some (.error .streamEndedPrematurely, tEnd)
    ∧ (tEnd < timeoutMs →
        waitForQuartoServer ⟨cs, some tEnd⟩ = .error .streamEndedPrematurely) := by
  have h1 := processStderr_never_completes cs "" tEnd h
  exact ⟨h1, fun hlt => by simp [waitForQuartoServer, h1, hlt]⟩

/-- Claim C3 witness: a one-chunk stream with no marker, ending at 7 ms. -/
theorem c3_witness :
    processStderr "" [⟨0, "a"⟩] (some 7)
      = some (.error .streamEndedPrematurely, 7)
    ∧ waitForQuartoServer ⟨[⟨0, "a"⟩], some 7⟩ = .error .streamEndedPrematurely :=
  ⟨(c3_stream_end_rejects [⟨0, "a"⟩] 7 (by decide)).1,
   (c3_stream_end_rejects [⟨0, "a"⟩] 7 (by decide)).2 (by decide)⟩

/-- Claim C4: the readiness wait races the stderr scan against the single
fixed overall timeout and the earlier resolution determines the outcome: a
scan that never resolves, or resolves no earlier than the timeout, yields
the ReadinessTimeout failure (not a retry, not a hang), while a scan
resolving strictly before the timeout yields the scan outcome; the timeout
is fixed at 60000 ms, i.e. tens of seconds. -/
theorem c4_timeout_race (s : TimedStream) :
    (processStderr "" s.chunks s.endTime = none →
      waitForQuartoServer s = .error .readinessTimeout)
    ∧ (∀ r t, processStderr "" s.chunks s.endTime = some (r, t) →
        t < timeoutMs → waitForQuartoServer s = r)
    ∧ (∀ r t, processStderr "" s.chunks s.endTime = some (r, t) →
        timeoutMs ≤ t → waitForQuartoServer s = .error .readinessTimeout)
    ∧ timeoutMs = 60000 ∧ 10000 ≤ timeoutMs ∧ timeoutMs < 100000 := by
  refine ⟨fun h => by simp [waitForQuartoServer, h],
    fun r t h hlt => by simp [waitForQuartoServer, h, hlt],
    fun r t h hge => ?_, rfl, by decide, by decide⟩
  simp [waitForQuartoServer, h, if_neg (Nat.not_lt.mpr hge)]

/-- Claim C4 witness: a silent never-ending stream times out; a stream
completing at 500 ms delivers the scan result. -/
theorem c4_witness :
    waitForQuartoServer ⟨[], none⟩ = .error .readinessTimeout
    ∧ waitForQuartoServer ⟨[⟨0, "Listening on http://h GET:"⟩], none⟩
        = .ok "http://h" :=
  ⟨(c4_timeout_race ⟨[], none⟩).1 rfl,
   (c4_timeout_race ⟨[⟨0, "Listening on http://h GET:"⟩], none⟩).2.1
     (.ok "http://h") (0 + settleDelayMs) rfl (by decide)⟩

/-! ### Claims C5 and C6: the shutdown routine -/

/-- Claim C5: for every combination of internal outcomes - the SIGTERM
send throwing, the bounded wait timing out, the escalation throwing, the
sweep subprocesses throwing or reporting survivors - stopQuartoPreview
returns normally: every internal error is absorbed, and the orphan sweep
and the verification sweep are attempted in every case, in particular when
the direct kill of the known process id fails. -/
theorem c5_stop_absorbs_all_errors (env : StopEnv) :
    stopResult env = .ok ()
    ∧ .orphanPkill ∈ stopTrace env
    ∧ .pgrepCheck ∈ stopTrace env := by
  obtain ⟨pid, st, eg, sk, pk, pg, ps, rp, fp⟩ := env
  by_cases hrp : rp = "" <;>
    cases st <;> cases eg <;> cases sk <;> cases pk <;> cases pg <;>
      cases ps <;> cases fp <;>
      simp_all [stopResult, stopTrace, stopQuartoPreview, directKillStep,
        orphanSweepStep, verifySweepStep, tryS, bindS, act, pureS]

/-- Claim C6: in every execution of the shutdown routine the attempted
actions decompose as the Step 1 trace followed by the Step 2 trace followed
by the Step 3 trace; Step 1 always attempts the graceful SIGTERM on the
known pid, bounds the exit wait by the 2000 ms grace period (a low
single-digit number of seconds) whenever the SIGTERM send did not throw,
and escalates to SIGKILL on the same pid exactly when the SIGTERM send
threw or the process did not exit within the grace period; Steps 2 and 3
attempt their sweeps regardless of the outcome of Step 1. -/
theorem c6_stop_step_ordering (env : StopEnv) :
    stopTrace env
      = (directKillStep env []).1
        ++ ((orphanSweepStep env []).1 ++ (verifySweepStep env []).1)
    ∧ .sigterm env.pid ∈ (directKillStep env []).1
    ∧ .orphanPkill ∈ (orphanSweepStep env []).1
    ∧ .pgrepCheck ∈ (verifySweepStep env []).1
    ∧ (.awaitExit graceTimeoutMs ∈ (directKillStep env []).1
        ↔ env.sigtermThrows = false)
    ∧ (.sigkill env.pid ∈ (directKillStep env []).1
        ↔ (env.sigtermThrows = true ∨ env.exitsWithinGrace = false))
    ∧ graceTimeoutMs = 2000 ∧ 1000 ≤ graceTimeoutMs ∧ graceTimeoutMs ≤ 9000 := by
  have hnum : graceTimeoutMs = 2000 ∧ 1000 ≤ graceTimeoutMs ∧ graceTimeoutMs ≤ 9000 :=
    ⟨rfl, by decide, by decide⟩
  obtain ⟨pid, st, eg, sk, pk, pg, ps, rp, fp⟩ := env
  have hmain :
      stopTrace ⟨pid, st, eg, sk, pk, pg, ps, rp, fp⟩
        = (directKillStep ⟨pid, st, eg, sk, pk, pg, ps, rp, fp⟩ []).1
          ++ ((orphanSweepStep ⟨pid, st, eg, sk, pk, pg, ps, rp, fp⟩ []).1
            ++ (verifySweepStep ⟨pid, st, eg, sk, pk, pg, ps, rp, fp⟩ []).1)
      ∧ .sigterm pid ∈ (directKillStep ⟨pid, st, eg, sk, pk, pg, ps, rp, fp⟩ []).1
      ∧ .orphanPkill ∈ (orphanSweepStep ⟨pid, st, eg, sk, pk, pg, ps, rp, fp⟩ []).1
      ∧ .pgrepCheck ∈ (verifySweepStep ⟨pid, st, eg, sk, pk, pg, ps, rp, fp⟩ []).1
      ∧ (.awaitExit graceTimeoutMs
            ∈ (directKillStep ⟨pid, st, eg, sk, pk, pg, ps, rp, fp⟩ []).1
          ↔ st = false)
      ∧ (.sigkill pid ∈ (directKillStep ⟨pid, st, eg, sk, pk, pg, ps, rp, fp⟩ []).1
          ↔ (st = true ∨ eg = false)) := by
    by_cases hrp : rp = "" <;>
      cases st <;> cases eg <;> cases sk <;> cases pk <;> cases pg <;>
        cases ps <;> cases fp <;>
        simp_all [stopTrace, stopQuartoPreview, directKillStep,
          orphanSweepStep, verifySweepStep, tryS, bindS, act, pureS]
  exact ⟨hmain.1, hmain.2.1, hmain.2.2.1, hmain.2.2.2.1, hmain.2.2.2.2.1,
    hmain.2.2.2.2.2, hnum.1, hnum.2.1, hnum.2.2⟩

/-! ### Claim C9: captureScreen -/

/-- Claim C9: captureScreen is total over its boolean result for every
output path, screen rectangle and environment - both catch layers absorb
every internal throw - and it returns true exactly when the capture tool
could be run and reported success, the output file exists afterwards, and
the file is non-empty; equivalently it returns false whenever the tool
fails, the file is missing, or the file has size zero. -/
theorem c9_captureScreen_total (outputPath : String) (rect : ScreenRect)
    (env : CaptureEnv) :
    captureScreen outputPath rect env = true
      ↔ (env.spawnThrows = false ∧ env.toolSuccess = true
          ∧ env.statOk = true ∧ env.fileSize ≠ 0) := by
  obtain ⟨sp, ts, so, fs⟩ := env
  cases sp <;> cases ts <;> cases so <;> simp [captureScreen]

/-! ### Claims C1 and C7: the run orchestrator -/

/-- Claim C1 (divergence witness): on an item whose screen capture fails,
processItem throws the fatal capture error without ever reaching the
stopQuartoPreview call - the event trace of the failing item ends at the
capture, with no stop event - contradicting the stop-before-propagating
policy of the claim. -/
theorem c1_capture_failure_skips_stop :
    processItem ⟨true, false, false, true⟩
      = ([.mkdir, .startPreview, .capture], false)
    ∧ .stopPreview ∉ (processItem ⟨true, false, false, true⟩).1 :=
  ⟨rfl, by decide⟩

/-- Claim C7 (counterexample): a run over three items whose second capture
fails issues only two preview starts and one preview stop, so a run over a
sequence of N items does not always issue exactly N starts and N stops. -/
theorem c7_counterexample :
    ((runItems [⟨true, true, false, true⟩, ⟨true, false, false, true⟩,
        ⟨true, true, false, true⟩]).1.count .startPreview = 2)
    ∧ ((runItems [⟨true, true, false, true⟩, ⟨true, false, false, true⟩,
        ⟨true, true, false, true⟩]).1.count .stopPreview = 1)
    ∧ ([⟨true, true, false, true⟩, ⟨true, false, false, true⟩,
        ⟨true, true, false, true⟩] : List ItemBehavior).length = 3 := by
  decide

/-- In every run, aborted or not, the event trace keeps preview lifecycles
strictly sequential: a preview starts only when none is live and stops only
when one is live. -/
lemma runItems_sequential (items : List ItemBehavior) :
    lifecyclesSequential false (runItems items).1 = true := by
  induction items with
  | nil => rfl
  | cons b rest ih =>
    obtain ⟨s, c, cr, co⟩ := b
    cases s <;> cases c <;> cases cr <;> cases co <;>
      simp_all [runItems, processItem, lifecyclesSequential]

/-- In a run whose items all succeed, every item contributes exactly one
start and one stop, and the loop reaches every item. -/
lemma runItems_counts (items : List ItemBehavior)
    (h : ∀ b ∈ items, b.startOk = true ∧ b.captureOk = true
      ∧ (b.copyRequested = true → b.copyOk = true)) :
    (runItems items).1.count .startPreview = items.length
    ∧ (runItems items).1.count .stopPreview = items.length
    ∧ (runItems items).2 = true := by
  induction items with
  | nil => simp [runItems]
  | cons b rest ih =>
    have hb := h b (List.mem_cons_self b rest)
    have hrest := fun b' hb' => h b' (List.mem_cons_of_mem _ hb')
    obtain ⟨s, c, cr, co⟩ := b
    obtain ⟨hs, hc, hcopy⟩ := hb
    subst hs; subst hc
    have ihr := ih hrest
    cases cr <;> cases co <;>
      simp_all [runItems, processItem, List.count_append, List.count_cons,
        beq_iff_eq, Nat.add_comm]

/-- Claim C7 (amended): for every run in which every item succeeds - its
preview start resolves, its capture succeeds and any requested copy
succeeds - the orchestrator issues exactly N preview starts and exactly N
preview stops for the N items, the run completes, and the trace keeps the
preview lifecycles strictly sequential with no two overlapping. -/
theorem c7_sequential_lifecycle_counts (items : List ItemBehavior)
    (h : ∀ b ∈ items, b.startOk = true ∧ b.captureOk = true
      ∧ (b.copyRequested = true → b.copyOk = true)) :
    (runItems items).1.count .startPreview = items.length
    ∧ (runItems items).1.count .stopPreview = items.length
    ∧ (runItems items).2 = true
    ∧ lifecyclesSequential false (runItems items).1 = true :=
  ⟨(runItems_counts items h).1, (runItems_counts items h).2.1,
    (runItems_counts items h).2.2, runItems_sequential items⟩

/-- Claim C7 witness: a concrete two-item all-successful run (one item with
a requested copy). -/
theorem c7_witness :
    (runItems [⟨true, true, false, true⟩, ⟨true, true, true, true⟩]).1.count
        .startPreview = 2
    ∧ (runItems [⟨true, true, false, true⟩, ⟨true, true, true, true⟩]).1.count
        .stopPreview = 2
    ∧ (runItems [⟨true, true, false, true⟩, ⟨true, true, true, true⟩]).2 = true
    ∧ lifecyclesSequential false
        (runItems [⟨true, true, false, true⟩, ⟨true, true, true, true⟩]).1
        = true :=
  c7_sequential_lifecycle_counts
    [⟨true, true, false, true⟩, ⟨true, true, true, true⟩] (by decide)

/-! ### Claims C8 and C10: argument parsing -/

/-- Claim C8 (counterexample): supplying both flags with an empty
start-commit value is accepted - the mutual-exclusion check tests
JavaScript truthiness of the start commit, and the empty string is falsy -
so supplying both flags does not always fail. -/
theorem c8_counterexample :
    parseArgs ["out", "--start-commit", "", "--profile-group"]
      = .ok ⟨"out", ".", none, some "", none, some "0"⟩ := by
  rfl

/-- Claim C8 (amended): whenever a command line parses with both a
profile-group index recorded and a non-empty start commit recorded, the
parse fails with the mutual-exclusion fatal argument error; and whenever
parsing fails, the run performs no lifecycle event at all - in particular
no preview subprocess is ever spawned - and exits with code 1. -/
theorem c8_mutual_exclusion :
    (∀ (out : String) (rest : List String) (st : ParseState) (s : String),
      parseFlags rest initParseState = .ok st →
      st.profileGroupIndex.isSome = true → st.startCommit = some s → s ≠ "" →
      parseArgs (out :: rest) = .error mutexErrorMsg)
    ∧ (∀ (argv : List String) (e : String) (items : List ItemBehavior),
      parseArgs argv = .error e → mainModel argv items = ([], 1)) := by
  constructor
  · intro out rest st s hrest hpg hsc hs
    simp [parseArgs, hrest, hpg, hsc, jsTruthyStr, hs]
  · intro argv e items h
    simp [mainModel, h]

/-- Claim C8 witness: both flags with a non-empty commit are rejected at
parse time, and a failing parse produces the empty trace and exit code 1. -/
theorem c8_witness :
    parseArgs ["out", "--start-commit", "abc", "--profile-group"]
      = .error mutexErrorMsg
    ∧ mainModel [] [] = ([], 1) :=
  ⟨c8_mutual_exclusion.1 "out" ["--start-commit", "abc", "--profile-group"]
      ⟨".", none, some "abc", none, some "0"⟩ "abc" rfl rfl rfl (by decide),
   c8_mutual_exclusion.2 [] usageErrorMsg [] rfl⟩

/-- Claim C10 (counterexample): the value-taking flag --input in final
position with no value after it is accepted, not rejected, when the
preceding argument is itself a value-taking flag: --file consumes the
trailing --input as its value and the parse succeeds. -/
theorem c10_counterexample :
    parseArgs ["out", "--file", "--input"]
      = .ok ⟨"out", ".", some "--input", none, none, none⟩ := by
  rfl

/-- A value-taking flag reached by the parsing loop as the final remaining
argument falls through every guard and is rejected as unknown: appending it
to any argument list the loop consumes completely turns the parse into the
unknown-argument error for that flag. -/
lemma parseFlags_trailing_flag (flag : String)
    (hf : flag = "--input" ∨ flag = "--file" ∨ flag = "--start-commit"
      ∨ flag = "--copy-file") :
    ∀ (n : Nat) (pre : List String) (st0 st : ParseState), pre.length ≤ n →
      parseFlags pre st0 = .ok st →
      parseFlags (pre ++ [flag]) st0
        = .error ("Unknown argument: " ++ flag) := by
  have hsingle : ∀ st0 : ParseState,
      parseFlags [flag] st0 = .error ("Unknown argument: " ++ flag) := by
    intro st0
    rcases hf with hf | hf | hf | hf <;> subst hf <;> rfl
  intro n
  induction n with
  | zero =>
    intro pre st0 st hlen _
    have hpre : pre = [] := List.eq_nil_of_length_eq_zero (Nat.le_zero.mp hlen)
    subst hpre
    exact hsingle st0
  | succ n ih =>
    intro pre st0 st hlen h
    match pre with
    | [] => exact hsingle st0
    | a :: rest =>
      have hstart : leadsWith "--".data flag.data = true := by
        rcases hf with hf | hf | hf | hf <;> subst hf <;> rfl
      by_cases h1 : a = "--input"
      · subst h1
        match rest with
        | [] => simp [parseFlags] at h
        | v :: rest' =>
          rw [List.cons_append, List.cons_append]
          rw [parseFlags, if_pos rfl] at h ⊢
          exact ih rest' _ st (by simp at hlen; omega) h
      · by_cases h2 : a = "--file"
        · subst h2
          match rest with
          | [] => simp [parseFlags, h1] at h
          | v :: rest' =>
            rw [List.cons_append, List.cons_append]
            rw [parseFlags, if_neg h1, if_pos rfl] at h ⊢
            exact ih rest' _ st (by simp at hlen; omega) h
        · by_cases h3 : a = "--start-commit"
          · subst h3
            match rest with
            | [] => simp [parseFlags, h1, h2] at h
            | v :: rest' =>
              rw [List.cons_append, List.cons_append]
              rw [parseFlags, if_neg h1, if_neg h2, if_pos rfl] at h ⊢
              exact ih rest' _ st (by simp at hlen; omega) h
          · by_cases h4 : a = "--copy-file"
            · subst h4
              match rest with
              | [] => simp [parseFlags, h1, h2, h3] at h
              | v :: rest' =>
                rw [List.cons_append, List.cons_append]
                rw [parseFlags, if_neg h1, if_neg h2, if_neg h3, if_pos rfl] at h ⊢
                exact ih rest' _ st (by simp at hlen; omega) h
            · by_cases h5 : a = "--profile-group"
              · subst h5
                match rest with
                | [] =>
                  rw [List.cons_append, List.nil_append, parseFlags.eq_def]
                  simp only [String.reduceEq, reduceIte, Bool.false_eq_true]
                  rw [if_neg (by simp [hstart])]
                  exact hsingle _
                | v :: rest' =>
                  by_cases hv : (jsNumericOk v && !(leadsWith "--".data v.data)) = true
                  · rw [parseFlags.eq_def] at h
                    simp only [String.reduceEq, reduceIte, Bool.false_eq_true,
                      hv] at h
                    rw [List.cons_append, List.cons_append, parseFlags.eq_def]
                    simp only [String.reduceEq, reduceIte, Bool.false_eq_true, hv]
                    exact ih rest' _ st (by simp at hlen; omega) h
                  · rw [parseFlags.eq_def] at h
                    simp only [String.reduceEq, reduceIte, Bool.false_eq_true] at h
                    rw [if_neg hv] at h
                    rw [List.cons_append, List.cons_append, parseFlags.eq_def]
                    simp only [String.reduceEq, reduceIte, Bool.false_eq_true]
                    rw [if_neg hv]
                    exact ih (v :: rest') _ st (by simp at hlen ⊢; omega) h
              · rw [parseFlags.eq_def] at h
                simp [h1, h2, h3, h4, h5] at h

/-- Claim C10 (amended): whenever one of the value-taking flags --input,
--file, --start-commit or --copy-file stands in final position and the
parser actually reaches it as a flag - the preceding arguments parse
completely on their own, so the final flag is not consumed as the value of
an earlier flag - parseFlags rejects it with the unknown-argument error
for that flag, and parseArgs propagates exactly that error. -/
theorem c10_trailing_value_flag_rejected (flag : String)
    (hf : flag = "--input" ∨ flag = "--file" ∨ flag = "--start-commit"
      ∨ flag = "--copy-file")
    (pre : List String) (st0 st : ParseState)
    (h : parseFlags pre st0 = .ok st) :
    parseFlags (pre ++ [flag]) st0 = .error ("Unknown argument: " ++ flag)
    ∧ (st0 = initParseState → ∀ out : String,
        parseArgs (out :: (pre ++ [flag]))
          = .error ("Unknown argument: " ++ flag)) := by
  have h1 := parseFlags_trailing_flag flag hf pre.length pre st0 st le_rfl h
  refine ⟨h1, fun h0 out => ?_⟩
  subst h0
  simp [parseArgs, h1]

/-- Claim C10 witness: a bare trailing --input is rejected by the loop and
by parseArgs. -/
theorem c10_witness :
    parseFlags ["--input"] initParseState
      = .error ("Unknown argument: " ++ "--input")
    ∧ parseArgs ["out", "--input"]
      = .error ("Unknown argument: " ++ "--input") :=
  ⟨(c10_trailing_value_flag_rejected "--input" (Or.inl rfl) [] initParseState
      initParseState rfl).1,
   (c10_trailing_value_flag_rejected "--input" (Or.inl rfl) [] initParseState
      initParseState rfl).2 rfl "out"⟩
